import Mathlib

/-!
Verification development for the interactive subprocess streaming and control
layer of the `specstudio` repository (`src/src-tauri/src/shell.rs`).

The Rust module is shallowly embedded as pure Lean functions:

* Rust `String` payloads are represented by their UTF-8 bytes (`List Nat`);
  ASCII literals are injected with `strBytes`.
* The registry's `HashMap<String, ProcessHandle>` is an association list with
  `HashMap::insert` semantics (replace the value when the key is present).
* Every fallible OS interaction (temp-file write, PTY open, spawn, reader or
  writer acquisition, reads, wait, locks) is driven by an explicit environment
  (`Env`, `InputEnv`) describing its outcome, and wall-clock readings come from
  an oracle `clock : Nat → Nat` consumed reading by reading, so that spawn-time
  timestamps and event timestamps are the successive values of that oracle.
* Mutable effects (registry, temp files on disk, emitted events) are threaded
  through a `World` record.  The background reader/waiter threads of one run
  are joined by the supervisor before the terminal event, so the whole run is
  modelled as the sequential composition spawn, pump loop, wait, cleanup; the
  two pipe pumps of an npm run interleave arbitrarily in reality and are
  composed stdout-then-stderr here (every interleaving keeps both pumps' events
  strictly before the terminal event, which is all the claims inspect).
-/

namespace SpecStudio

/-- UTF-8 encoding of one scalar value, as plain naturals.
Mirrors the standard UTF-8 byte layout used by Rust `String`. -/
def utf8EncodeCharNat (c : Char) : List Nat :=
  let n := c.toNat
  if n < 0x80 then [n]
  else if n < 0x800 then [0xC0 + n / 0x40, 0x80 + n % 0x40]
  else if n < 0x10000 then
    [0xE0 + n / 0x1000, 0x80 + (n / 0x40) % 0x40, 0x80 + n % 0x40]
  else
    [0xF0 + n / 0x40000, 0x80 + (n / 0x1000) % 0x40,
      0x80 + (n / 0x40) % 0x40, 0x80 + n % 0x40]

/-- The UTF-8 bytes of a Rust `String`/`&str` value. -/
def strBytes (s : String) : List Nat :=
  s.data.flatMap utf8EncodeCharNat

/-- Whether a byte is a UTF-8 continuation byte (`0x80 ..= 0xBF`). -/
def isCont (b : Nat) : Bool :=
  0x80 ≤ b && b ≤ 0xBF

/-- Length (1-4) of the well-formed UTF-8 sequence starting the list, or 0 if
the list does not start with a well-formed sequence.  Follows RFC 3629 (the
validity notion used by Rust's `str`): no overlong forms, no surrogates,
nothing above U+10FFFF. -/
def utf8SeqLen : List Nat → Nat
  | [] => 0
  | b0 :: rest =>
    if b0 < 0x80 then 1
    else if 0xC2 ≤ b0 && b0 ≤ 0xDF then
      match rest with
      | b1 :: _ => if isCont b1 then 2 else 0
      | [] => 0
    else if b0 == 0xE0 then
      match rest with
      | b1 :: b2 :: _ => if (0xA0 ≤ b1 && b1 ≤ 0xBF) && isCont b2 then 3 else 0
      | _ => 0
    else if (0xE1 ≤ b0 && b0 ≤ 0xEC) || (0xEE ≤ b0 && b0 ≤ 0xEF) then
      match rest with
      | b1 :: b2 :: _ => if isCont b1 && isCont b2 then 3 else 0
      | _ => 0
    else if b0 == 0xED then
      match rest with
      | b1 :: b2 :: _ => if (0x80 ≤ b1 && b1 ≤ 0x9F) && isCont b2 then 3 else 0
      | _ => 0
    else if b0 == 0xF0 then
      match rest with
      | b1 :: b2 :: b3 :: _ =>
        if ((0x90 ≤ b1 && b1 ≤ 0xBF) && isCont b2) && isCont b3 then 4 else 0
      | _ => 0
    else if 0xF1 ≤ b0 && b0 ≤ 0xF3 then
      match rest with
      | b1 :: b2 :: b3 :: _ =>
        if (isCont b1 && isCont b2) && isCont b3 then 4 else 0
      | _ => 0
    else if b0 == 0xF4 then
      match rest with
      | b1 :: b2 :: b3 :: _ =>
        if ((0x80 ≤ b1 && b1 ≤ 0x8F) && isCont b2) && isCont b3 then 4 else 0
      | _ => 0
    else 0

/-- The UTF-8 bytes of the replacement character U+FFFD. -/
def replacementBytes : List Nat := [0xEF, 0xBF, 0xBD]

/-- Worker for `utf8Lossy`, structurally recursive on a fuel argument.  The
wrapper always supplies `l.length` fuel, which suffices because every step
consumes at least one byte; at fuel 0 the remaining input is returned
unchanged (unreachable from the wrapper on nonempty remainders). -/
def utf8LossyGo : Nat → List Nat → List Nat
  | 0, l => l
  | _, [] => []
  | fuel + 1, b :: rest =>
    let n := utf8SeqLen (b :: rest)
    if n = 0 then replacementBytes ++ utf8LossyGo fuel rest
    else (b :: rest).take n ++ utf8LossyGo fuel ((b :: rest).drop n)

/-- Byte-level model of Rust's `String::from_utf8_lossy`: well-formed UTF-8
sequences are copied verbatim, ill-formed input is replaced by U+FFFD and never
fails.  (The exact granularity of replacement-character insertion is
abstracted; the claims only go "modulo invalid-UTF-8 replacement".) -/
def utf8Lossy (l : List Nat) : List Nat :=
  utf8LossyGo l.length l

/-- Worker for `validUtf8`, structurally recursive on fuel (see
`utf8LossyGo`). -/
def validUtf8Go : Nat → List Nat → Bool
  | 0, l => l.isEmpty
  | _, [] => true
  | fuel + 1, b :: rest =>
    let n := utf8SeqLen (b :: rest)
    if n = 0 then false
    else validUtf8Go fuel ((b :: rest).drop n)

/-- Whether a byte list is entirely well-formed UTF-8. -/
def validUtf8 (l : List Nat) : Bool :=
  validUtf8Go l.length l

/-- Model of `StreamEvent` (shell.rs:25): event type tag, payload (UTF-8 bytes of the
Rust `String`), and wall-clock timestamp in milliseconds. -/
structure StreamEvent where
  eventType : String
  data : List Nat
  timestamp : Nat
deriving DecidableEq, Repr

/-- Model of `SpawnResult` (shell.rs:34). -/
structure SpawnResult where
  started : Bool
  process_id : String
deriving DecidableEq, Repr

/-- Model of `CancelResult` (shell.rs:41). -/
structure CancelResult where
  success : Bool
deriving DecidableEq, Repr

/-- Model of `InputResult` (shell.rs:47). -/
structure InputResult where
  success : Bool
  message : String
deriving DecidableEq, Repr

/-- Model of `ProcessWriter` (shell.rs:56): the write channel held by the registry.
`pty` holds the contents of the `Mutex<Option<Box<dyn Write>>>` (an abstract
handle identity when present), `stdin` the contents of the
`Mutex<Option<ChildStdin>>`. -/
inductive ProcessWriter where
  | pty (w : Option Nat)
  | stdin (s : Option Nat)
deriving DecidableEq, Repr

/-- Model of `ProcessHandle` (shell.rs:61). -/
structure ProcessHandle where
  writer : ProcessWriter
  child_pid : Option Nat
deriving DecidableEq, Repr

/-- The registry's `HashMap<String, ProcessHandle>`, as an association list
with unique keys. -/
abbrev RegistryMap := List (String × ProcessHandle)

/-- Model of `HashMap::insert`: replaces the stored value when the key is already
present, otherwise adds the binding. -/
def mapInsert : RegistryMap → String → ProcessHandle → RegistryMap
  | [], k, v => [(k, v)]
  | p :: m, k, v => if p.1 = k then (k, v) :: m else p :: mapInsert m k v

/-- Model of `HashMap::get`, restricted to the stored handle. -/
def mapGet : RegistryMap → String → Option ProcessHandle
  | [], _ => none
  | p :: m, k => if p.1 = k then some p.2 else mapGet m k

/-- Model of `HashMap::remove`, dropping any binding for the key. -/
def mapRemove : RegistryMap → String → RegistryMap
  | [], _ => []
  | p :: m, k => if p.1 = k then mapRemove m k else p :: mapRemove m k

namespace ProcessRegistry

/-- Model of `ProcessRegistry::register_pty` (shell.rs:77): store a PTY-writer record. -/
def register_pty (m : RegistryMap) (id : String) (pty_writer : Nat)
    (child_pid : Option Nat) : RegistryMap :=
  mapInsert m id { writer := .pty (some pty_writer), child_pid }

/-- The `Child` consumed by `ProcessRegistry::register`: its (taken) stdin
handle and its OS pid. -/
structure ChildModel where
  stdin : Option Nat
  pid : Nat
deriving DecidableEq, Repr

/-- Model of `ProcessRegistry::register` (shell.rs:85): take the child's stdin, store a
stdin-writer record, and hand the stdin handle back to the caller. -/
def register (m : RegistryMap) (id : String) (child : ChildModel) :
    RegistryMap × Option Nat :=
  (mapInsert m id { writer := .stdin child.stdin, child_pid := some child.pid },
    child.stdin)

/-- Model of `ProcessRegistry::get_stdin` (shell.rs:100). -/
def get_stdin (m : RegistryMap) (id : String) : Option (Option Nat) :=
  (mapGet m id).bind fun h =>
    match h.writer with
    | .stdin s => some s
    | .pty _ => none

/-- Model of `ProcessRegistry::get_pty_writer` (shell.rs:109). -/
def get_pty_writer (m : RegistryMap) (id : String) : Option (Option Nat) :=
  (mapGet m id).bind fun h =>
    match h.writer with
    | .pty w => some w
    | .stdin _ => none

/-- Model of `ProcessRegistry::remove` (shell.rs:118). -/
def remove (m : RegistryMap) (id : String) : RegistryMap :=
  mapRemove m id

/-- Model of `ProcessRegistry::kill_all` (shell.rs:122) on a POSIX host: drain every
record and, for each record with a known OS pid, spawn `kill -9 <pid>`
(argument vector recorded verbatim).  Returns the count of signalled
processes, the spawned `kill` invocations, and the drained (empty) map. -/
def kill_all (m : RegistryMap) : Nat × List (List String) × RegistryMap :=
  let cmds := m.filterMap fun p =>
    p.2.child_pid.map (fun pid => ["-9", Nat.repr pid])
  (cmds.length, cmds, [])

/-- Model of `ProcessRegistry::get_active_process_id` (shell.rs:146): an arbitrary
tracked id (the hash map's first iteration key; here, the list head). -/
def get_active_process_id (m : RegistryMap) : Option String :=
  m.head?.map (fun p => p.1)

end ProcessRegistry

/-- Path join as performed by `PathBuf::join` on the inputs the module builds
(an empty base yields the bare component). -/
def pathJoin (a b : String) : String :=
  if a == "" then b else a ++ "/" ++ b

/-- The ordered candidate directories probed by `resolve_binary_path`
(shell.rs:174). -/
def searchPaths (home : String) : List String :=
  [pathJoin home ".local/bin",
    "/opt/homebrew/bin",
    "/usr/local/bin",
    "/usr/bin",
    "/bin",
    "/usr/sbin",
    "/sbin",
    pathJoin home ".bun/bin",
    pathJoin home ".npm-global/bin",
    pathJoin home ".cargo/bin"]

/-- Model of `resolve_binary_path` (shell.rs:165): return the first existing candidate
`dir/name`, skipping empty directory entries, falling back to the bare name.
`ex` is the file-existence oracle for `Path::exists`. -/
def resolve_binary_path (home : String) (ex : String → Bool)
    (binary_name : String) : String :=
  match (searchPaths home).find?
      (fun path => ¬ path == "" && ex (pathJoin path binary_name)) with
  | some path => pathJoin path binary_name
  | none => binary_name

/-- The directories `get_robust_path_env` prepends (shell.rs:212). -/
def extraPaths (home : String) : List String :=
  [pathJoin home ".local/bin",
    "/opt/homebrew/bin",
    "/usr/local/bin",
    pathJoin home ".bun/bin",
    pathJoin home ".npm-global/bin",
    pathJoin home ".cargo/bin"]

/-- Model of `get_robust_path_env` (shell.rs:203): `extra.join(":") ++ ":" ++ PATH`. -/
def get_robust_path_env (home existing_path : String) : String :=
  String.intercalate ":" (extraPaths home) ++ ":" ++ existing_path

/-- The mutable effects one run touches: the shared registry, the set of
existing temp files, the event stream published so far, and the wall-clock
oracle (`clock` lists the successive `SystemTime::now` readings; `tick` counts
how many have been consumed). -/
structure World where
  clock : Nat → Nat
  tick : Nat
  registry : RegistryMap
  files : List String
  events : List StreamEvent

/-- Model of `get_timestamp` (shell.rs:225): consume one wall-clock reading. -/
def get_timestamp (w : World) : Nat × World :=
  (w.clock w.tick, { w with tick := w.tick + 1 })

/-- Model of `emit_stream_event` (shell.rs:232): publish one `StreamEvent` stamped with
a fresh wall-clock reading. -/
def emit_stream_event (w : World) (event_type : String) (data : List Nat) :
    World :=
  let (ts, w') := get_timestamp w
  { w' with
      events := w'.events ++ [{ eventType := event_type, data, timestamp := ts }] }

/-- Outcome of one `read` call on a byte stream: `ok bytes` is
`Ok(bytes.length)` filling the buffer with `bytes` (so `ok []` is `Ok(0)`,
end-of-stream), `err` is `Err(_)`. -/
inductive ReadResult where
  | ok (bytes : List Nat)
  | err
deriving DecidableEq, Repr

/-- Model of `stream_stdout` (shell.rs:245): loop reading the child's stdout pipe,
emitting one "output" event per successful read with the lossily-decoded
bytes, stopping at `Ok(0)` or a read error. -/
def stream_stdout : List ReadResult → World → World
  | [], w => w
  | .ok [] :: _, w => w
  | .ok b :: rest, w => stream_stdout rest (emit_stream_event w "output" (utf8Lossy b))
  | .err :: _, w => w

/-- Model of `stream_stderr` (shell.rs:264): same loop over the stderr pipe, emitting
"error" events. -/
def stream_stderr : List ReadResult → World → World
  | [], w => w
  | .ok [] :: _, w => w
  | .ok b :: rest, w => stream_stderr rest (emit_stream_event w "error" (utf8Lossy b))
  | .err :: _, w => w

/-- The PTY reader thread's loop (shell.rs:404), identical in shape to
`stream_stdout` but reading the PTY master. -/
def ptyReaderLoop : List ReadResult → World → World
  | [], w => w
  | .ok [] :: _, w => w
  | .ok b :: rest, w => ptyReaderLoop rest (emit_stream_event w "output" (utf8Lossy b))
  | .err :: _, w => w

/-- Model of `build_prompt` (shell.rs:282). -/
def build_prompt (action : String) (spec_content : String) : String :=
  if action == "create_code" then
    "You are implementing code based on the following specification.\n\n## Specification\n"
      ++ spec_content
      ++ "\n\n## Instructions\n1. Implement the code according to the specification\n2. Follow best practices\n3. Create necessary files and directories\n4. Do NOT commit any changes - git operations are handled manually by the user"
  else
    "You are generating tests based on the following specification.\n\n## Specification\n"
      ++ spec_content
      ++ "\n\n## Instructions\n1. Generate comprehensive tests for the specified functionality\n2. Include unit tests, integration tests where appropriate\n3. Follow the testing conventions established in the project\n4. Do NOT commit any changes - git operations are handled manually by the user"

/-- Payload of the immediate "process started" indicator event
(shell.rs:391): `format("Process started (PID: {:?})\n", pid.unwrap_or(0))`. -/
def startedData (child_pid : Option Nat) : List Nat :=
  strBytes ("Process started (PID: " ++ Nat.repr (child_pid.getD 0) ++ ")\n")

/-- Payload of the PTY run's terminal event (shell.rs:451); the exit code is
the platform-native `u32`. -/
def ptyCompleteData (exit_code : Nat) : List Nat :=
  strBytes ("Process exited with code " ++ Nat.repr exit_code)

/-- Payload of the npm run's terminal event (shell.rs:521); the exit code is
an `i32`, `-1` on a wait failure or missing status. -/
def npmCompleteData (exit_code : Int) : List Nat :=
  strBytes ("Process exited with code " ++ toString exit_code)

/-- Model of `std::env::temp_dir()` on the POSIX hosts the module targets. -/
def tempDirPath : String := "/tmp"

/-- The run's temp prompt file path (shell.rs:342):
`temp_dir.join(format("specstudio_prompt_{}.txt", process_id))`. -/
def spawnTempPath (process_id : String) : String :=
  pathJoin tempDirPath ("specstudio_prompt_" ++ process_id ++ ".txt")

/-- The ProcessId minted at spawn time (shell.rs:329):
`format("proc_{}", get_timestamp())`. -/
def mkProcessId (ts : Nat) : String :=
  "proc_" ++ Nat.repr ts

/-- Model of `fs::write` to a fresh or existing path: afterwards the path exists. -/
def insertFile : List String → String → List String
  | [], path => [path]
  | p :: fs, path => if p = path then p :: fs else p :: insertFile fs path

/-- Model of `fs::remove_file` (best-effort, result ignored): afterwards the path does
not exist. -/
def removeFile : List String → String → List String
  | [], _ => []
  | p :: fs, path =>
    if p = path then removeFile fs path else p :: removeFile fs path

/-- Outcomes of every fallible OS interaction one spawn call performs, fixed
up-front as an oracle.  A field being `false`/`none` means that interaction
fails when (and if) the code reaches it. -/
structure Env where
  home : String
  fileExists : String → Bool
  pathVar : String
  currentDir : String
  ioMsg : String
  tempWriteOk : Bool
  openPtyOk : Bool
  spawnOk : Bool
  cloneReaderOk : Bool
  takeWriterOk : Bool
  child_pid : Option Nat
  writerHandle : Nat
  ptyReads : List ReadResult
  ptyWait : Option Nat
  registryAccessible : Bool
  npmSpawnOk : Bool
  npmStdoutReads : List ReadResult
  npmStderrReads : List ReadResult
  npmWait : Option (Option Int)

/-- Model of `spawn_npm_command` (shell.rs:469).  Note: the source receives the
registry as `_registry` and never touches it — no record is created for the
npm child, and the child's pid and stdin are never read (`stdin` is
`Stdio::null()`).  The two pipe pumps run concurrently; they are composed
stdout-then-stderr here (see the module comment). -/
def spawn_npm_command (env : Env) (w : World) (process_id : String)
    (cwd : String) (args : List String) : Except String SpawnResult × World :=
  let npm_path := resolve_binary_path env.home env.fileExists "npm"
  let robust_path := get_robust_path_env env.home env.pathVar
  let _cmd := (npm_path, args, cwd, robust_path)
  if ¬ env.npmSpawnOk then
    (.error ("Failed to spawn npm: " ++ env.ioMsg), w)
  else
    let w := stream_stdout env.npmStdoutReads w
    let w := stream_stderr env.npmStderrReads w
    let exit_code : Int :=
      match env.npmWait with
      | some code => code.getD (-1)
      | none => -1
    let w := emit_stream_event w "complete" (npmCompleteData exit_code)
    (.ok { started := true, process_id }, w)

/-- Model of `spawn_streaming_process` (shell.rs:318), covering the spawn call together
with its background reader and waiter threads (which the waiter joins before
the terminal event; the model runs them sequentially after a successful
spawn). -/
def spawn_streaming_process (env : Env) (w0 : World) (action : String)
    (working_directory : Option String) (spec_content : Option String) :
    Except String SpawnResult × World :=
  let cwd := working_directory.getD env.currentDir
  let (ts, w) := get_timestamp w0
  let process_id := mkProcessId ts
  if action == "create_code" || action == "gen_tests" then
    match spec_content with
    | none => (.error "specContent is required for this action", w)
    | some spec =>
      let _prompt := build_prompt action spec
      let temp_path := spawnTempPath process_id
      if ¬ env.tempWriteOk then
        (.error ("Failed to write temp prompt file: " ++ env.ioMsg), w)
      else
        let w := { w with files := insertFile w.files temp_path }
        let claude_path := resolve_binary_path env.home env.fileExists "claude"
        let robust_path := get_robust_path_env env.home env.pathVar
        if ¬ env.openPtyOk then
          (.error ("Failed to create PTY: " ++ env.ioMsg), w)
        else
          let _cmd :=
            (claude_path, ["-p", temp_path, "--dangerously-skip-permissions"],
              cwd, robust_path)
          if ¬ env.spawnOk then
            (.error ("Failed to spawn claude: " ++ env.ioMsg), w)
          else
            let child_pid := env.child_pid
            let w := emit_stream_event w "output" (startedData child_pid)
            if ¬ env.cloneReaderOk then
              (.error ("Failed to clone PTY reader: " ++ env.ioMsg), w)
            else if ¬ env.takeWriterOk then
              (.error ("Failed to take PTY writer: " ++ env.ioMsg), w)
            else
              let w := { w with
                registry := ProcessRegistry.register_pty w.registry process_id
                  env.writerHandle child_pid }
              let w := ptyReaderLoop env.ptyReads w
              let exit_code :=
                match env.ptyWait with
                | some status => status
                | none => 1
              let w :=
                if env.registryAccessible then
                  { w with
                      registry := ProcessRegistry.remove w.registry process_id }
                else w
              let w := { w with files := removeFile w.files temp_path }
              let w := emit_stream_event w "complete" (ptyCompleteData exit_code)
              (.ok { started := true, process_id }, w)
  else if action == "run_tests" then
    spawn_npm_command env w process_id cwd ["test"]
  else if action == "run_app" then
    spawn_npm_command env w process_id cwd ["run", "dev"]
  else
    (.error ("Unknown streaming action: " ++ action), w)

/-- Outcomes of the fallible steps of one input-injection call. -/
structure InputEnv where
  ptyLockOk : Bool
  stdinLockOk : Bool
  writeOk : Bool
  flushOk : Bool
  ioMsg : String

/-- The stdin half of `send_process_input` (shell.rs:548), reached when no PTY
writer is available.  The third component lists the byte strings written to
the child's input channel during the call. -/
def sendInputViaStdin (env : InputEnv) (w : World) (process_id : String)
    (input_with_newline : List Nat) (echo : List Nat) :
    Except String InputResult × World × List (List Nat) :=
  match ProcessRegistry.get_stdin w.registry process_id with
  | some sOpt =>
    if ¬ env.stdinLockOk then (.error "Failed to lock stdin", w, [])
    else
      match sOpt with
      | some _ =>
        if ¬ env.writeOk then (.error env.ioMsg, w, [])
        else if ¬ env.flushOk then (.error env.ioMsg, w, [input_with_newline])
        else
          (.ok { success := true, message := "Input sent to stdin" },
            emit_stream_event w "input" echo, [input_with_newline])
      | none => (.error "Process writer unavailable", w, [])
  | none => (.error "Process writer unavailable", w, [])

/-- Model of `send_process_input` (shell.rs:527).  The third component lists the byte
strings written to the target's write channel during the call. -/
def send_process_input (env : InputEnv) (w : World) (input : String) :
    Except String InputResult × World × List (List Nat) :=
  match ProcessRegistry.get_active_process_id w.registry with
  | none => (.error "No active process", w, [])
  | some process_id =>
    let input_with_newline := strBytes (input ++ "\n")
    let echo := strBytes ("> " ++ input ++ "\n")
    match ProcessRegistry.get_pty_writer w.registry process_id with
    | some wOpt =>
      if ¬ env.ptyLockOk then (.error "Failed to lock PTY writer", w, [])
      else
        match wOpt with
        | some _ =>
          if ¬ env.writeOk then (.error env.ioMsg, w, [])
          else if ¬ env.flushOk then (.error env.ioMsg, w, [input_with_newline])
          else
            (.ok { success := true, message := "Input sent to PTY" },
              emit_stream_event w "input" echo, [input_with_newline])
        | none => sendInputViaStdin env w process_id input_with_newline echo
    | none => sendInputViaStdin env w process_id input_with_newline echo

/-- Model of `cancel_streaming_processes` (shell.rs:561): delegate to `kill_all`.  The
third component lists the spawned `kill` invocations. -/
def cancel_streaming_processes (w : World) :
    CancelResult × World × List (List String) :=
  let (_killed, cmds, m) := ProcessRegistry.kill_all w.registry
  ({ success := true }, { w with registry := m }, cmds)

/-- Projection of an event to its observable (type, payload) pair, dropping
the wall-clock timestamp; used to state trace properties. -/
def evProj (e : StreamEvent) : String × List Nat :=
  (e.eventType, e.data)

/-- Specification-side description of what one pump emits: the lossy decoding
of each successful nonempty read, in order, up to the first end-of-stream
marker or read error. -/
def pumpPayloads : List ReadResult → List (List Nat)
  | [] => []
  | .ok [] :: _ => []
  | .ok b :: rest => utf8Lossy b :: pumpPayloads rest
  | .err :: _ => []

/-- A quiescent test world: empty registry, no temp files, no events yet, and
a wall clock stuck at 5 ms (`SystemTime` has millisecond granularity, so
distinct calls can observe the same reading). -/
def baseWorld : World :=
  { clock := fun _ => 5, tick := 0, registry := [], files := [], events := [] }

/-- A test environment in which every OS interaction succeeds: the PTY child
has pid 42 and produces one read `"hi"` then EOF with exit code 0; the npm
child produces one stdout read `"hi"`, empty stderr, exit code 0. -/
def okEnv : Env :=
  { home := "/home/u", fileExists := fun _ => false, pathVar := "/usr/bin",
    currentDir := "/w", ioMsg := "os error",
    tempWriteOk := true, openPtyOk := true, spawnOk := true,
    cloneReaderOk := true, takeWriterOk := true,
    child_pid := some 42, writerHandle := 7,
    ptyReads := [.ok [104, 105], .ok []], ptyWait := some 0,
    registryAccessible := true,
    npmSpawnOk := true, npmStdoutReads := [.ok [104, 105], .ok []],
    npmStderrReads := [.ok []], npmWait := some (some 0) }

/-- A test input-injection environment in which locking, writing and flushing
all succeed. -/
def okInputEnv : InputEnv :=
  { ptyLockOk := true, stdinLockOk := true, writeOk := true, flushOk := true,
    ioMsg := "os error" }

/-! ### Basic lemmas about emission and the pumps -/

theorem emit_stream_event_evProj (w : World) (t : String) (d : List Nat) :
    (emit_stream_event w t d).events.map evProj
      = w.events.map evProj ++ [(t, d)] := by
  simp [emit_stream_event, get_timestamp, evProj]

theorem emit_stream_event_registry (w : World) (t : String) (d : List Nat) :
    (emit_stream_event w t d).registry = w.registry := rfl

theorem emit_stream_event_files (w : World) (t : String) (d : List Nat) :
    (emit_stream_event w t d).files = w.files := rfl

theorem stream_stdout_spec (reads : List ReadResult) :
    ∀ w : World,
      (stream_stdout reads w).events.map evProj
          = w.events.map evProj
            ++ (pumpPayloads reads).map (fun d => ("output", d))
        ∧ (stream_stdout reads w).registry = w.registry
        ∧ (stream_stdout reads w).files = w.files := by
  induction reads with
  | nil => intro w; simp [stream_stdout, pumpPayloads]
  | cons r rest ih =>
    intro w
    cases r with
    | err => simp [stream_stdout, pumpPayloads]
    | ok b =>
      cases b with
      | nil => simp [stream_stdout, pumpPayloads]
      | cons x xs =>
        have h := ih (emit_stream_event w "output" (utf8Lossy (x :: xs)))
        refine ⟨?_, ?_, ?_⟩
        · simp [stream_stdout, pumpPayloads, h.1, emit_stream_event_evProj]
        · simp [stream_stdout, h.2.1, emit_stream_event_registry]
        · simp [stream_stdout, h.2.2, emit_stream_event_files]

theorem stream_stderr_spec (reads : List ReadResult) :
    ∀ w : World,
      (stream_stderr reads w).events.map evProj
          = w.events.map evProj
            ++ (pumpPayloads reads).map (fun d => ("error", d))
        ∧ (stream_stderr reads w).registry = w.registry
        ∧ (stream_stderr reads w).files = w.files := by
  induction reads with
  | nil => intro w; simp [stream_stderr, pumpPayloads]
  | cons r rest ih =>
    intro w
    cases r with
    | err => simp [stream_stderr, pumpPayloads]
    | ok b =>
      cases b with
      | nil => simp [stream_stderr, pumpPayloads]
      | cons x xs =>
        have h := ih (emit_stream_event w "error" (utf8Lossy (x :: xs)))
        refine ⟨?_, ?_, ?_⟩
        · simp [stream_stderr, pumpPayloads, h.1, emit_stream_event_evProj]
        · simp [stream_stderr, h.2.1, emit_stream_event_registry]
        · simp [stream_stderr, h.2.2, emit_stream_event_files]

theorem ptyReaderLoop_spec (reads : List ReadResult) :
    ∀ w : World,
      (ptyReaderLoop reads w).events.map evProj
          = w.events.map evProj
            ++ (pumpPayloads reads).map (fun d => ("output", d))
        ∧ (ptyReaderLoop reads w).registry = w.registry
        ∧ (ptyReaderLoop reads w).files = w.files := by
  induction reads with
  | nil => intro w; simp [ptyReaderLoop, pumpPayloads]
  | cons r rest ih =>
    intro w
    cases r with
    | err => simp [ptyReaderLoop, pumpPayloads]
    | ok b =>
      cases b with
      | nil => simp [ptyReaderLoop, pumpPayloads]
      | cons x xs =>
        have h := ih (emit_stream_event w "output" (utf8Lossy (x :: xs)))
        refine ⟨?_, ?_, ?_⟩
        · simp [ptyReaderLoop, pumpPayloads, h.1, emit_stream_event_evProj]
        · simp [ptyReaderLoop, h.2.1, emit_stream_event_registry]
        · simp [ptyReaderLoop, h.2.2, emit_stream_event_files]

/-! ### UTF-8 lemmas -/

theorem utf8LossyGo_of_validGo :
    ∀ fuel l, validUtf8Go fuel l = true → utf8LossyGo fuel l = l := by
  intro fuel
  induction fuel with
  | zero => intro l _; cases l <;> rfl
  | succ n ih =>
    intro l h
    cases l with
    | nil => rfl
    | cons b rest =>
      simp only [validUtf8Go] at h
      simp only [utf8LossyGo]
      by_cases hn : utf8SeqLen (b :: rest) = 0
      · simp [hn] at h
      · simp only [hn, if_false] at h ⊢
        rw [ih _ h, List.take_append_drop]

theorem utf8Lossy_of_valid (l : List Nat) (h : validUtf8 l = true) :
    utf8Lossy l = l :=
  utf8LossyGo_of_validGo _ _ h

theorem utf8LossyGo_fuel : ∀ fuel (l : List Nat), l.length ≤ fuel →
    utf8LossyGo fuel l = utf8Lossy l := by
  intro fuel
  induction fuel using Nat.strong_induction_on with
  | _ fuel ih =>
    intro l hl
    cases fuel with
    | zero =>
      cases l with
      | nil => rfl
      | cons x r => simp at hl
    | succ f =>
      cases l with
      | nil => rfl
      | cons x r =>
        simp only [List.length_cons] at hl
        conv_rhs => rw [utf8Lossy]
        simp only [List.length_cons, utf8LossyGo]
        by_cases hn : utf8SeqLen (x :: r) = 0
        · rw [if_pos hn, if_pos hn, ih f (by omega) r (by omega),
            ih r.length (by omega) r (by omega)]
        · rw [if_neg hn, if_neg hn,
            ih f (by omega) ((x :: r).drop (utf8SeqLen (x :: r)))
              (by simp only [List.length_drop, List.length_cons]; omega),
            ih r.length (by omega) ((x :: r).drop (utf8SeqLen (x :: r)))
              (by simp only [List.length_drop, List.length_cons]; omega)]

theorem validUtf8Go_fuel : ∀ fuel (l : List Nat), l.length ≤ fuel →
    validUtf8Go fuel l = validUtf8 l := by
  intro fuel
  induction fuel using Nat.strong_induction_on with
  | _ fuel ih =>
    intro l hl
    cases fuel with
    | zero =>
      cases l with
      | nil => rfl
      | cons x r => simp at hl
    | succ f =>
      cases l with
      | nil => rfl
      | cons x r =>
        simp only [List.length_cons] at hl
        conv_rhs => rw [validUtf8]
        simp only [List.length_cons, validUtf8Go]
        by_cases hn : utf8SeqLen (x :: r) = 0
        · rw [if_pos hn, if_pos hn]
        · rw [if_neg hn, if_neg hn,
            ih f (by omega) ((x :: r).drop (utf8SeqLen (x :: r)))
              (by simp only [List.length_drop, List.length_cons]; omega),
            ih r.length (by omega) ((x :: r).drop (utf8SeqLen (x :: r)))
              (by simp only [List.length_drop, List.length_cons]; omega)]

theorem utf8Lossy_cons (x : Nat) (r : List Nat) :
    utf8Lossy (x :: r)
      = if utf8SeqLen (x :: r) = 0 then replacementBytes ++ utf8Lossy r
        else (x :: r).take (utf8SeqLen (x :: r))
          ++ utf8Lossy ((x :: r).drop (utf8SeqLen (x :: r))) := by
  conv_lhs => rw [utf8Lossy]
  simp only [List.length_cons, utf8LossyGo]
  by_cases hn : utf8SeqLen (x :: r) = 0
  · rw [if_pos hn, if_pos hn, utf8LossyGo_fuel r.length r (by omega)]
  · rw [if_neg hn, if_neg hn,
      utf8LossyGo_fuel r.length ((x :: r).drop (utf8SeqLen (x :: r)))
        (by simp only [List.length_drop, List.length_cons]; omega)]

theorem validUtf8_cons (x : Nat) (r : List Nat) :
    validUtf8 (x :: r)
      = if utf8SeqLen (x :: r) = 0 then false
        else validUtf8 ((x :: r).drop (utf8SeqLen (x :: r))) := by
  conv_lhs => rw [validUtf8]
  simp only [List.length_cons, validUtf8Go]
  by_cases hn : utf8SeqLen (x :: r) = 0
  · rw [if_pos hn, if_pos hn]
  · rw [if_neg hn, if_neg hn,
      validUtf8Go_fuel r.length ((x :: r).drop (utf8SeqLen (x :: r)))
        (by simp only [List.length_drop, List.length_cons]; omega)]

/-- The lossy decoding is the identity exactly on well-formed input: a
well-formed read passes through byte-for-byte, and an ill-formed read is
always altered by replacement (never dropped, never a failure).  The forward
direction hinges on the replacement bytes `EF BF BD` themselves forming a
well-formed sequence, so a replaced payload can never coincide with an
ill-formed input. -/
theorem utf8Lossy_eq_self_iff : ∀ b : List Nat,
    (utf8Lossy b = b ↔ validUtf8 b = true) := by
  have H : ∀ (len : Nat) (b : List Nat), b.length ≤ len →
      (utf8Lossy b = b ↔ validUtf8 b = true) := by
    intro len
    induction len with
    | zero =>
      intro b hb
      cases b with
      | nil => simp [utf8Lossy, validUtf8, utf8LossyGo, validUtf8Go]
      | cons x r => simp at hb
    | succ k ih =>
      intro b hb
      cases b with
      | nil => simp [utf8Lossy, validUtf8, utf8LossyGo, validUtf8Go]
      | cons x r =>
        simp only [List.length_cons] at hb
        rw [utf8Lossy_cons, validUtf8_cons]
        by_cases hn : utf8SeqLen (x :: r) = 0
        · rw [if_pos hn, if_pos hn]
          simp only [Bool.false_eq_true, iff_false]
          intro heq
          rw [replacementBytes] at heq
          simp only [List.cons_append, List.nil_append, List.cons.injEq] at heq
          obtain ⟨hx, hr⟩ := heq
          subst hx
          rw [← hr] at hn
          have h3 : utf8SeqLen (239 :: 191 :: 189 :: utf8Lossy r) = 3 := rfl
          omega
        · rw [if_neg hn, if_neg hn]
          have hlen : ((x :: r).drop (utf8SeqLen (x :: r))).length ≤ k := by
            simp only [List.length_drop, List.length_cons]
            omega
          rw [← ih ((x :: r).drop (utf8SeqLen (x :: r))) hlen]
          constructor
          · intro heq
            exact List.append_cancel_left
              (heq.trans (List.take_append_drop (utf8SeqLen (x :: r)) (x :: r)).symm)
          · intro heq
            rw [heq, List.take_append_drop]
  intro b
  exact H b.length b (le_refl _)

theorem pumpPayloads_map_ok (chunks : List (List Nat))
    (h : ∀ b ∈ chunks, b ≠ []) :
    pumpPayloads (chunks.map ReadResult.ok ++ [ReadResult.ok []])
      = chunks.map utf8Lossy := by
  induction chunks with
  | nil => simp [pumpPayloads]
  | cons b bs ih =>
    have hb : b ≠ [] := h b (by simp)
    cases b with
    | nil => exact absurd rfl hb
    | cons x xs =>
      simp only [List.map_cons, List.cons_append, pumpPayloads]
      exact congrArg _ (ih fun c hc => h c (by simp [hc]))

theorem map_utf8Lossy_of_valid (chunks : List (List Nat))
    (h : ∀ b ∈ chunks, validUtf8 b = true) :
    chunks.map utf8Lossy = chunks := by
  induction chunks with
  | nil => rfl
  | cons b bs ih =>
    simp only [List.map_cons]
    rw [utf8Lossy_of_valid b (h b (by simp)), ih fun c hc => h c (by simp [hc])]

/-! ### Decimal rendering is injective (for ProcessId uniqueness) -/

theorem dcharFinInj :
    ∀ a b : Fin 10, Nat.digitChar a.val = Nat.digitChar b.val → a = b := by
  decide

theorem dcharInj {a b : Nat} (ha : a < 10) (hb : b < 10)
    (h : Nat.digitChar a = Nat.digitChar b) : a = b :=
  congrArg Fin.val (dcharFinInj ⟨a, ha⟩ ⟨b, hb⟩ h)

theorem mapDcInj : ∀ l1 l2 : List Nat, (∀ x ∈ l1, x < 10) → (∀ x ∈ l2, x < 10) →
    l1.map Nat.digitChar = l2.map Nat.digitChar → l1 = l2 := by
  intro l1
  induction l1 with
  | nil =>
    intro l2 _ _ h
    cases l2 with
    | nil => rfl
    | cons y ys => simp at h
  | cons x xs ih =>
    intro l2 h1 h2 h
    cases l2 with
    | nil => simp at h
    | cons y ys =>
      simp only [List.map_cons, List.cons.injEq] at h
      have hx := dcharInj (h1 x (by simp)) (h2 y (by simp)) h.1
      rw [hx, ih ys (fun z hz => h1 z (by simp [hz]))
        (fun z hz => h2 z (by simp [hz])) h.2]

theorem toDigitsCore_eq (fuel : Nat) :
    ∀ n acc, 0 < n → n < fuel →
      Nat.toDigitsCore 10 fuel n acc
        = ((Nat.digits 10 n).map Nat.digitChar).reverse ++ acc := by
  induction fuel with
  | zero => intro n acc h1 h2; omega
  | succ f ih =>
    intro n acc h1 h2
    have hd := Nat.digits_def' (b := 10) (by norm_num) h1
    simp only [Nat.toDigitsCore]
    by_cases hz : n / 10 = 0
    · simp [hz, hd, Nat.digits_zero]
    · have hlt : n / 10 < f := by
        have := Nat.div_lt_self h1 (by norm_num : 1 < 10)
        omega
      simp only [hz, if_false]
      rw [ih (n / 10) _ (Nat.pos_of_ne_zero hz) hlt, hd]
      simp [List.append_assoc]

theorem charsOf_eq (n : Nat) (h : 0 < n) :
    Nat.toDigits 10 n = ((Nat.digits 10 n).map Nat.digitChar).reverse := by
  have := toDigitsCore_eq (n + 1) n [] h (by omega)
  simpa [Nat.toDigits] using this

theorem natRepr_inj : ∀ {m n : Nat}, Nat.repr m = Nat.repr n → m = n := by
  intro m n h
  have hc : Nat.toDigits 10 m = Nat.toDigits 10 n := by
    have := congrArg String.data h
    simpa [Nat.repr] using this
  rcases Nat.eq_zero_or_pos m with hm | hm <;> rcases Nat.eq_zero_or_pos n with hn | hn
  · omega
  · subst hm
    rw [charsOf_eq n hn] at hc
    have h0 : Nat.toDigits 10 0 = ['0'] := rfl
    rw [h0] at hc
    have hrev : (Nat.digits 10 n).map Nat.digitChar = ['0'] := by
      have := congrArg List.reverse hc
      simpa using this.symm
    have hdig : Nat.digits 10 n = [0] := by
      have hlt : ∀ x ∈ Nat.digits 10 n, x < 10 := fun x hx =>
        Nat.digits_lt_base (by norm_num) hx
      have h01 : ([0] : List Nat).map Nat.digitChar = ['0'] := rfl
      exact mapDcInj _ [0] hlt (by simp) (by rw [hrev, h01])
    have hofd := Nat.ofDigits_digits 10 n
    rw [hdig] at hofd
    simp [Nat.ofDigits] at hofd
    omega
  · subst hn
    rw [charsOf_eq m hm] at hc
    have h0 : Nat.toDigits 10 0 = ['0'] := rfl
    rw [h0] at hc
    have hrev : (Nat.digits 10 m).map Nat.digitChar = ['0'] := by
      have := congrArg List.reverse hc
      simpa using this
    have hdig : Nat.digits 10 m = [0] := by
      have hlt : ∀ x ∈ Nat.digits 10 m, x < 10 := fun x hx =>
        Nat.digits_lt_base (by norm_num) hx
      have h01 : ([0] : List Nat).map Nat.digitChar = ['0'] := rfl
      exact mapDcInj _ [0] hlt (by simp) (by rw [hrev, h01])
    have hofd := Nat.ofDigits_digits 10 m
    rw [hdig] at hofd
    simp [Nat.ofDigits] at hofd
    omega
  · rw [charsOf_eq m hm, charsOf_eq n hn] at hc
    have hmap := List.reverse_inj.mp hc
    have hdig := mapDcInj _ _ (fun x hx => Nat.digits_lt_base (by norm_num) hx)
      (fun x hx => Nat.digits_lt_base (by norm_num) hx) hmap
    exact Nat.digits_inj_iff.mp hdig

theorem strAppendLeftCancel {a x y : String} (h : a ++ x = a ++ y) : x = y := by
  have hd := congrArg String.data h
  simp only [String.data_append] at hd
  have hc := List.append_cancel_left hd
  cases x; cases y; exact congrArg String.mk hc

theorem strAppendRightCancel {b x y : String} (h : x ++ b = y ++ b) : x = y := by
  have hd := congrArg String.data h
  simp only [String.data_append] at hd
  have hc := List.append_cancel_right hd
  cases x; cases y; exact congrArg String.mk hc

theorem mkProcessId_inj {t1 t2 : Nat} (h : mkProcessId t1 = mkProcessId t2) :
    t1 = t2 := by
  simp only [mkProcessId] at h
  exact natRepr_inj (strAppendLeftCancel h)

theorem spawnTempPath_inj {id1 id2 : String}
    (h : spawnTempPath id1 = spawnTempPath id2) : id1 = id2 := by
  have h' : "/tmp" ++ "/" ++ ("specstudio_prompt_" ++ id1 ++ ".txt")
      = "/tmp" ++ "/" ++ ("specstudio_prompt_" ++ id2 ++ ".txt") := h
  exact strAppendLeftCancel (strAppendRightCancel (strAppendLeftCancel h'))

/-! ### Association-list lemmas for the registry map -/

theorem mapGet_mapInsert_self :
    ∀ (m : RegistryMap) (k : String) (v : ProcessHandle),
      mapGet (mapInsert m k v) k = some v := by
  intro m k v
  induction m with
  | nil => simp [mapInsert, mapGet]
  | cons p m' ih =>
    by_cases hp : p.1 = k
    · simp [mapInsert, mapGet, hp]
    · simp [mapInsert, mapGet, hp, ih]

theorem mapGet_mapInsert_ne :
    ∀ (m : RegistryMap) (k k' : String) (v : ProcessHandle), ¬ k' = k →
      mapGet (mapInsert m k v) k' = mapGet m k' := by
  intro m k k' v h
  have hne : ¬ k = k' := fun hc => h hc.symm
  induction m with
  | nil => simp [mapInsert, mapGet, hne]
  | cons p m' ih =>
    by_cases hp : p.1 = k
    · have hp' : ¬ p.1 = k' := by rw [hp]; exact hne
      simp [mapInsert, mapGet, hp, hp', hne]
    · by_cases hp' : p.1 = k'
      · simp [mapInsert, mapGet, hp, hp', h]
      · simp [mapInsert, mapGet, hp, hp', ih]

theorem mapGet_mapRemove_self :
    ∀ (m : RegistryMap) (k : String), mapGet (mapRemove m k) k = none := by
  intro m k
  induction m with
  | nil => rfl
  | cons p m' ih =>
    by_cases hp : p.1 = k
    · simp [mapRemove, hp, ih]
    · simp [mapRemove, mapGet, hp, ih]

/-! ### Projection forms of the pump lemmas (for rewriting) -/

theorem ptyReaderLoop_evProj (reads : List ReadResult) (w : World) :
    (ptyReaderLoop reads w).events.map evProj
      = w.events.map evProj
        ++ (pumpPayloads reads).map (fun d => ("output", d)) :=
  (ptyReaderLoop_spec reads w).1

theorem ptyReaderLoop_registry (reads : List ReadResult) (w : World) :
    (ptyReaderLoop reads w).registry = w.registry :=
  (ptyReaderLoop_spec reads w).2.1

theorem ptyReaderLoop_files (reads : List ReadResult) (w : World) :
    (ptyReaderLoop reads w).files = w.files :=
  (ptyReaderLoop_spec reads w).2.2

theorem stream_stdout_evProj (reads : List ReadResult) (w : World) :
    (stream_stdout reads w).events.map evProj
      = w.events.map evProj
        ++ (pumpPayloads reads).map (fun d => ("output", d)) :=
  (stream_stdout_spec reads w).1

theorem stream_stdout_registry (reads : List ReadResult) (w : World) :
    (stream_stdout reads w).registry = w.registry :=
  (stream_stdout_spec reads w).2.1

theorem stream_stdout_files (reads : List ReadResult) (w : World) :
    (stream_stdout reads w).files = w.files :=
  (stream_stdout_spec reads w).2.2

theorem stream_stderr_evProj (reads : List ReadResult) (w : World) :
    (stream_stderr reads w).events.map evProj
      = w.events.map evProj
        ++ (pumpPayloads reads).map (fun d => ("error", d)) :=
  (stream_stderr_spec reads w).1

theorem stream_stderr_registry (reads : List ReadResult) (w : World) :
    (stream_stderr reads w).registry = w.registry :=
  (stream_stderr_spec reads w).2.1

theorem stream_stderr_files (reads : List ReadResult) (w : World) :
    (stream_stderr reads w).files = w.files :=
  (stream_stderr_spec reads w).2.2

/-! ### File-set lemmas -/

theorem mem_insertFile_self : ∀ (fs : List String) (x : String),
    x ∈ insertFile fs x := by
  intro fs x
  induction fs with
  | nil => simp [insertFile]
  | cons p fs' ih =>
    by_cases hp : p = x
    · simp [insertFile, hp]
    · simp [insertFile, hp, ih]

theorem not_mem_removeFile_self : ∀ (fs : List String) (x : String),
    x ∉ removeFile fs x := by
  intro fs x
  induction fs with
  | nil => simp [removeFile]
  | cons p fs' ih =>
    by_cases hp : p = x
    · simp [removeFile, hp]
      simpa [hp] using ih
    · simp [removeFile, hp, ih]
      exact fun hc => absurd hc.symm hp

/-! ### String byte lemmas -/

theorem strBytes_append (a b : String) :
    strBytes (a ++ b) = strBytes a ++ strBytes b := by
  simp [strBytes, String.data_append, List.flatMap_append]

theorem startedData_take22 (p : Option Nat) :
    (startedData p).take 22 = strBytes "Process started (PID: " := by
  have h1 : "Process started (PID: " ++ Nat.repr (p.getD 0) ++ ")\n"
      = "Process started (PID: " ++ (Nat.repr (p.getD 0) ++ ")\n") := by
    simp [String.append_assoc]
  have h2 : (strBytes "Process started (PID: ").length = 22 := by decide
  rw [startedData, h1, strBytes_append]
  rw [← h2, List.take_left]

/-! ### Master lemmas: the observable effects of one run -/

theorem spawn_pty_spec (env : Env) (w0 : World) (action : String)
    (wd : Option String) (spec : String)
    (ha : action = "create_code" ∨ action = "gen_tests")
    (h1 : env.tempWriteOk = true) (h2 : env.openPtyOk = true)
    (h3 : env.spawnOk = true) (h4 : env.cloneReaderOk = true)
    (h5 : env.takeWriterOk = true) :
    (spawn_streaming_process env w0 action wd (some spec)).1
        = Except.ok { started := true,
                      process_id := mkProcessId (w0.clock w0.tick) }
      ∧ (spawn_streaming_process env w0 action wd (some spec)).2.events.map evProj
          = w0.events.map evProj
            ++ (("output", startedData env.child_pid)
              :: ((pumpPayloads env.ptyReads).map (fun d => ("output", d))
                ++ [("complete", ptyCompleteData (match env.ptyWait with
                      | some s => s
                      | none => 1))]))
      ∧ (spawn_streaming_process env w0 action wd (some spec)).2.files
          = removeFile
              (insertFile w0.files (spawnTempPath (mkProcessId (w0.clock w0.tick))))
              (spawnTempPath (mkProcessId (w0.clock w0.tick)))
      ∧ (spawn_streaming_process env w0 action wd (some spec)).2.registry
          = (if env.registryAccessible then
              ProcessRegistry.remove
                (ProcessRegistry.register_pty w0.registry
                  (mkProcessId (w0.clock w0.tick)) env.writerHandle env.child_pid)
                (mkProcessId (w0.clock w0.tick))
            else
              ProcessRegistry.register_pty w0.registry
                (mkProcessId (w0.clock w0.tick)) env.writerHandle env.child_pid) := by
  by_cases hacc : env.registryAccessible = true <;>
  · obtain ha | ha := ha <;>
    · subst ha
      refine ⟨?_, ?_, ?_, ?_⟩ <;>
        simp [spawn_streaming_process, get_timestamp, h1, h2, h3, h4, h5, hacc,
          emit_stream_event_evProj, emit_stream_event_registry,
          emit_stream_event_files, ptyReaderLoop_evProj, ptyReaderLoop_registry,
          ptyReaderLoop_files,
          Bool.not_eq_true] at *

theorem countP_tagged_eq_zero (ds : List (List Nat)) (t : String)
    (h : (t == "complete") = false) :
    (ds.map (fun d => (t, d))).countP
        (fun p : String × List Nat => p.1 == "complete") = 0 := by
  induction ds with
  | nil => rfl
  | cons d ds' ih => simp [List.countP_cons, h, ih]

theorem getLast?_snoc_chain {α : Type} (x l : List α) (a c : α) :
    (x ++ (a :: (l ++ [c]))).getLast? = some c := by
  have hx : x ++ (a :: (l ++ [c])) = (x ++ (a :: l)) ++ [c] := by simp
  rw [hx, List.getLast?_concat]

theorem spawn_npm_spec (env : Env) (w0 : World) (action : String)
    (wd : Option String) (sc : Option String)
    (ha : action = "run_tests" ∨ action = "run_app")
    (h : env.npmSpawnOk = true) :
    (spawn_streaming_process env w0 action wd sc).1
        = Except.ok { started := true,
                      process_id := mkProcessId (w0.clock w0.tick) }
      ∧ (spawn_streaming_process env w0 action wd sc).2.events.map evProj
          = w0.events.map evProj
            ++ ((pumpPayloads env.npmStdoutReads).map (fun d => ("output", d))
              ++ ((pumpPayloads env.npmStderrReads).map (fun d => ("error", d))
                ++ [("complete", npmCompleteData (match env.npmWait with
                      | some code => code.getD (-1)
                      | none => -1))]))
      ∧ (spawn_streaming_process env w0 action wd sc).2.registry = w0.registry
      ∧ (spawn_streaming_process env w0 action wd sc).2.files = w0.files := by
  obtain ha | ha := ha <;>
  · subst ha
    refine ⟨?_, ?_, ?_, ?_⟩ <;>
      simp [spawn_streaming_process, spawn_npm_command, get_timestamp, h,
        emit_stream_event_evProj, emit_stream_event_registry,
        emit_stream_event_files, stream_stdout_evProj, stream_stdout_registry,
        stream_stdout_files, stream_stderr_evProj, stream_stderr_registry,
        stream_stderr_files, Bool.not_eq_true] at *

/-! ### Failure-path lemmas: the observable effects of each failing stage -/

theorem spawn_no_spec_spec (env : Env) (w0 : World) (wd : Option String)
    (a : String) (ha : a = "create_code" ∨ a = "gen_tests") :
    (spawn_streaming_process env w0 a wd none).1
        = Except.error "specContent is required for this action"
      ∧ (spawn_streaming_process env w0 a wd none).2.events = w0.events
      ∧ (spawn_streaming_process env w0 a wd none).2.registry = w0.registry
      ∧ (spawn_streaming_process env w0 a wd none).2.files = w0.files := by
  obtain ha | ha := ha <;> subst ha <;>
    simp [spawn_streaming_process, get_timestamp]

theorem spawn_tempwrite_fail_spec (env : Env) (w0 : World) (wd : Option String)
    (spec : String) (a : String) (ha : a = "create_code" ∨ a = "gen_tests")
    (h : env.tempWriteOk = false) :
    (spawn_streaming_process env w0 a wd (some spec)).1
        = Except.error ("Failed to write temp prompt file: " ++ env.ioMsg)
      ∧ (spawn_streaming_process env w0 a wd (some spec)).2.events = w0.events
      ∧ (spawn_streaming_process env w0 a wd (some spec)).2.registry = w0.registry
      ∧ (spawn_streaming_process env w0 a wd (some spec)).2.files = w0.files := by
  obtain ha | ha := ha <;> subst ha <;>
    simp [spawn_streaming_process, get_timestamp, h]

theorem spawn_openpty_fail_spec (env : Env) (w0 : World) (wd : Option String)
    (spec : String) (a : String) (ha : a = "create_code" ∨ a = "gen_tests")
    (h1 : env.tempWriteOk = true) (h2 : env.openPtyOk = false) :
    (spawn_streaming_process env w0 a wd (some spec)).1
        = Except.error ("Failed to create PTY: " ++ env.ioMsg)
      ∧ (spawn_streaming_process env w0 a wd (some spec)).2.events = w0.events
      ∧ (spawn_streaming_process env w0 a wd (some spec)).2.registry = w0.registry
      ∧ (spawn_streaming_process env w0 a wd (some spec)).2.files
        = insertFile w0.files (spawnTempPath (mkProcessId (w0.clock w0.tick))) := by
  obtain ha | ha := ha <;> subst ha <;>
    simp [spawn_streaming_process, get_timestamp, h1, h2]

theorem spawn_spawnfail_spec (env : Env) (w0 : World) (wd : Option String)
    (spec : String) (a : String) (ha : a = "create_code" ∨ a = "gen_tests")
    (h1 : env.tempWriteOk = true) (h2 : env.openPtyOk = true)
    (h3 : env.spawnOk = false) :
    (spawn_streaming_process env w0 a wd (some spec)).1
        = Except.error ("Failed to spawn claude: " ++ env.ioMsg)
      ∧ (spawn_streaming_process env w0 a wd (some spec)).2.events = w0.events
      ∧ (spawn_streaming_process env w0 a wd (some spec)).2.registry = w0.registry
      ∧ (spawn_streaming_process env w0 a wd (some spec)).2.files
        = insertFile w0.files (spawnTempPath (mkProcessId (w0.clock w0.tick))) := by
  obtain ha | ha := ha <;> subst ha <;>
    simp [spawn_streaming_process, get_timestamp, h1, h2, h3]

theorem spawn_clonefail_spec (env : Env) (w0 : World) (wd : Option String)
    (spec : String) (a : String) (ha : a = "create_code" ∨ a = "gen_tests")
    (h1 : env.tempWriteOk = true) (h2 : env.openPtyOk = true)
    (h3 : env.spawnOk = true) (h4 : env.cloneReaderOk = false) :
    (spawn_streaming_process env w0 a wd (some spec)).1
        = Except.error ("Failed to clone PTY reader: " ++ env.ioMsg)
      ∧ (spawn_streaming_process env w0 a wd (some spec)).2.events.map evProj
        = w0.events.map evProj ++ [("output", startedData env.child_pid)]
      ∧ (spawn_streaming_process env w0 a wd (some spec)).2.registry = w0.registry
      ∧ (spawn_streaming_process env w0 a wd (some spec)).2.files
        = insertFile w0.files (spawnTempPath (mkProcessId (w0.clock w0.tick))) := by
  obtain ha | ha := ha <;> subst ha <;>
    simp [spawn_streaming_process, get_timestamp, h1, h2, h3, h4,
      emit_stream_event_evProj, emit_stream_event_registry,
      emit_stream_event_files]

theorem spawn_takewriter_fail_spec (env : Env) (w0 : World) (wd : Option String)
    (spec : String) (a : String) (ha : a = "create_code" ∨ a = "gen_tests")
    (h1 : env.tempWriteOk = true) (h2 : env.openPtyOk = true)
    (h3 : env.spawnOk = true) (h4 : env.cloneReaderOk = true)
    (h5 : env.takeWriterOk = false) :
    (spawn_streaming_process env w0 a wd (some spec)).1
        = Except.error ("Failed to take PTY writer: " ++ env.ioMsg)
      ∧ (spawn_streaming_process env w0 a wd (some spec)).2.events.map evProj
        = w0.events.map evProj ++ [("output", startedData env.child_pid)]
      ∧ (spawn_streaming_process env w0 a wd (some spec)).2.registry = w0.registry
      ∧ (spawn_streaming_process env w0 a wd (some spec)).2.files
        = insertFile w0.files (spawnTempPath (mkProcessId (w0.clock w0.tick))) := by
  obtain ha | ha := ha <;> subst ha <;>
    simp [spawn_streaming_process, get_timestamp, h1, h2, h3, h4, h5,
      emit_stream_event_evProj, emit_stream_event_registry,
      emit_stream_event_files]

theorem spawn_npm_fail_spec (env : Env) (w0 : World) (wd : Option String)
    (sc : Option String) (a : String) (ha : a = "run_tests" ∨ a = "run_app")
    (h : env.npmSpawnOk = false) :
    (spawn_streaming_process env w0 a wd sc).1
        = Except.error ("Failed to spawn npm: " ++ env.ioMsg)
      ∧ (spawn_streaming_process env w0 a wd sc).2.events = w0.events
      ∧ (spawn_streaming_process env w0 a wd sc).2.registry = w0.registry
      ∧ (spawn_streaming_process env w0 a wd sc).2.files = w0.files := by
  obtain ha | ha := ha <;> subst ha <;>
    simp [spawn_streaming_process, spawn_npm_command, get_timestamp, h]

theorem sendInputViaStdin_spec (env : InputEnv) (w : World) (pid : String)
    (iwn echo : List Nat) :
    (∀ res, (sendInputViaStdin env w pid iwn echo).1 = Except.ok res →
        (sendInputViaStdin env w pid iwn echo).2.2 = [iwn]
          ∧ (sendInputViaStdin env w pid iwn echo).2.1.events.map evProj
            = w.events.map evProj ++ [("input", echo)])
      ∧ (∀ msg, (sendInputViaStdin env w pid iwn echo).1 = Except.error msg →
          (sendInputViaStdin env w pid iwn echo).2.1.events = w.events) := by
  unfold sendInputViaStdin
  cases hs : ProcessRegistry.get_stdin w.registry pid with
  | none => simp
  | some sOpt =>
    cases hl : env.stdinLockOk with
    | false => simp [hl]
    | true =>
      cases sOpt with
      | none => simp [hl]
      | some s =>
        cases hw' : env.writeOk with
        | false => simp [hl, hw']
        | true =>
          cases hf : env.flushOk with
          | false => simp [hl, hw', hf]
          | true =>
            simp [hl, hw', hf, emit_stream_event_evProj]

/-! ### Claim theorems -/

/-- Claim C5: after `kill_all()` the registry's tracked-id set is empty (all
records drained, including pid-less ones) and the returned count equals the
number of tracked OS pids signalled — but the forced-termination signal the
code issues is `kill -9 <pid>`, addressed to the single process, not to the
process group (`kill -9 -<pid>`) that the claim (and the code's own comment)
requires.  Evaluation at the failing input: a registry holding a record with
OS pid 1234 and a pid-less record. -/
theorem C5_kill_all_eval :
    ProcessRegistry.kill_all
        [("proc_1", { writer := .pty (some 0), child_pid := some 1234 }),
          ("proc_2", { writer := .stdin none, child_pid := none })]
        = (1, [["-9", "1234"]], [])
      ∧ ["-9", "1234"] ≠ ["-9", "-1234"] := by
  exact ⟨rfl, by decide⟩

/-- Claim C6 (counterexample): two distinct, sequential spawn calls whose
wall-clock readings fall in the same millisecond (clock stuck at 5 ms) both
return `started = true` with the SAME ProcessId `"proc_5"` — the id is reused,
so the temp prompt paths of the two runs coincide as well. -/
theorem C6_counterexample :
    (spawn_streaming_process okEnv baseWorld "create_code" none (some "S")).1
        = Except.ok { started := true, process_id := "proc_5" }
      ∧ (spawn_streaming_process okEnv
            (spawn_streaming_process okEnv baseWorld "create_code" none
              (some "S")).2
            "create_code" none (some "S")).1
        = Except.ok { started := true, process_id := "proc_5" } := by
  exact ⟨rfl, by rfl⟩

/-- Claim C6 (amended): the ProcessId is derived solely from the wall-clock
millisecond reading at spawn time (`proc_<millis>`); spawn calls whose
readings differ receive distinct ProcessIds and non-colliding temp prompt
paths, but calls within the same millisecond (or under clock regression)
share the id and the temp path. -/
theorem C6_amended (t1 t2 : Nat) (h : t1 ≠ t2) :
    mkProcessId t1 ≠ mkProcessId t2
      ∧ spawnTempPath (mkProcessId t1) ≠ spawnTempPath (mkProcessId t2) := by
  constructor
  · exact fun hc => h (mkProcessId_inj hc)
  · exact fun hc => h (mkProcessId_inj (spawnTempPath_inj hc))

/-- Witness for C6 (amended) at readings 5 and 6. -/
theorem C6_witness :
    mkProcessId 5 ≠ mkProcessId 6
      ∧ spawnTempPath (mkProcessId 5) ≠ spawnTempPath (mkProcessId 6) :=
  C6_amended 5 6 (by decide)

/-- Claim C7: for every pipe-based run, the pump emits exactly one "output"
event per successful read — whatever the read's bytes, well-formed or
ill-formed — whose payload is the lossy decoding of exactly that read's bytes
(no line-splitting, no buffering beyond one read); a read's payload equals
the read byte-for-byte exactly when the read is well-formed UTF-8, an
ill-formed read being replaced (altered, never dropped, never a failure);
and on a stream of well-formed reads the concatenation of the emitted
payloads in emission order is byte-identical to the child's stdout stream
(byte-identity holds modulo that replacement, exactly as claimed). -/
theorem C7_pipe_pump_passthrough (reads : List ReadResult) (w : World)
    (chunks : List (List Nat))
    (hr : reads = chunks.map ReadResult.ok ++ [ReadResult.ok []])
    (hne : ∀ b ∈ chunks, b ≠ []) :
    (stream_stdout reads w).events.map evProj
        = w.events.map evProj ++ chunks.map (fun b => ("output", utf8Lossy b))
      ∧ pumpPayloads reads = chunks.map utf8Lossy
      ∧ (∀ b ∈ chunks, (utf8Lossy b = b ↔ validUtf8 b = true))
      ∧ ((∀ b ∈ chunks, validUtf8 b = true) →
          (pumpPayloads reads).flatten = chunks.flatten) := by
  have h2 : pumpPayloads reads = chunks.map utf8Lossy := by
    rw [hr]; exact pumpPayloads_map_ok chunks hne
  refine ⟨?_, h2, fun b _ => utf8Lossy_eq_self_iff b, fun hv => ?_⟩
  · rw [stream_stdout_evProj, h2, List.map_map]
    rfl
  · rw [h2, map_utf8Lossy_of_valid chunks hv]

/-- Witness for C7 on a stream containing an ill-formed read: `[0xFF, 0x68]`
is not well-formed UTF-8 (0xFF can begin no sequence), the pump still emits
exactly one event for it, its payload is the replacement bytes followed by
`h` — altered, not passed through — while the well-formed read `"hi"` passes
through byte-for-byte. -/
theorem C7_witness :
    pumpPayloads
        [ReadResult.ok [255, 104], ReadResult.ok [104, 105], ReadResult.ok []]
        = [[255, 104], [104, 105]].map utf8Lossy
      ∧ utf8Lossy [255, 104] = [239, 191, 189, 104]
      ∧ validUtf8 [255, 104] = false
      ∧ utf8Lossy [255, 104] ≠ [255, 104]
      ∧ utf8Lossy [104, 105] = [104, 105] := by
  have h := C7_pipe_pump_passthrough
    [ReadResult.ok [255, 104], ReadResult.ok [104, 105], ReadResult.ok []]
    baseWorld [[255, 104], [104, 105]] rfl (by decide)
  refine ⟨h.2.1, by decide, by decide, ?_, ?_⟩
  · intro hc
    have hv := (h.2.2.1 [255, 104] (by decide)).mp hc
    exact absurd hv (by decide)
  · exact (h.2.2.1 [104, 105] (by decide)).mpr (by decide)

/-- Claim C8 (counterexample): registering an already-present id does NOT
leave the previously registered record in place — `HashMap::insert` silently
replaces it.  Registering id `"p"` (old record: writer 1, pid 10) again with
writer 2, pid 20 stores the new record. -/
theorem C8_counterexample :
    ProcessRegistry.register_pty
        [("p", { writer := .pty (some 1), child_pid := some 10 })] "p" 2 (some 20)
        = [("p", { writer := .pty (some 2), child_pid := some 20 })]
      ∧ mapGet
          (ProcessRegistry.register_pty
            [("p", { writer := .pty (some 1), child_pid := some 10 })] "p" 2
            (some 20)) "p"
        ≠ some { writer := .pty (some 1), child_pid := some 10 } := by
  exact ⟨rfl, by decide⟩

/-- Claim C8 (amended): registering an id that is already present propagates
no error to the caller, but rather than preserving the old record it silently
overwrites it: afterwards the registry maps the id to the NEW record (for both
`register_pty` and `register`), and no log is emitted; records of all other
ids are untouched. -/
theorem C8_amended (m : RegistryMap) (id : String) (wtr : Nat)
    (pid : Option Nat) (child : ProcessRegistry.ChildModel) :
    mapGet (ProcessRegistry.register_pty m id wtr pid) id
        = some { writer := .pty (some wtr), child_pid := pid }
      ∧ (∀ k, ¬ k = id →
          mapGet (ProcessRegistry.register_pty m id wtr pid) k = mapGet m k)
      ∧ mapGet (ProcessRegistry.register m id child).1 id
        = some { writer := .stdin child.stdin, child_pid := some child.pid }
      ∧ (∀ k, ¬ k = id →
          mapGet (ProcessRegistry.register m id child).1 k = mapGet m k) := by
  refine ⟨mapGet_mapInsert_self m id _, fun k hk => ?_,
    mapGet_mapInsert_self m id _, fun k hk => ?_⟩
  · exact mapGet_mapInsert_ne m id k _ hk
  · exact mapGet_mapInsert_ne m id k _ hk

/-- Witness for C8 (amended): re-registering id `"p"` over an existing record
yields the new record, and the sibling id `"q"` keeps its record. -/
theorem C8_witness :
    mapGet
        (ProcessRegistry.register_pty
          [("p", { writer := .pty (some 1), child_pid := some 10 }),
            ("q", { writer := .stdin (some 3), child_pid := some 11 })]
          "p" 2 (some 20)) "p"
        = some { writer := .pty (some 2), child_pid := some 20 }
      ∧ mapGet
          (ProcessRegistry.register_pty
            [("p", { writer := .pty (some 1), child_pid := some 10 }),
              ("q", { writer := .stdin (some 3), child_pid := some 11 })]
            "p" 2 (some 20)) "q"
        = mapGet
            [("p", { writer := .pty (some 1), child_pid := some 10 }),
              ("q", { writer := .stdin (some 3), child_pid := some 11 })] "q" := by
  have h := C8_amended
    [("p", { writer := .pty (some 1), child_pid := some 10 }),
      ("q", { writer := .stdin (some 3), child_pid := some 11 })]
    "p" 2 (some 20) { stdin := some 9, pid := 12 }
  exact ⟨h.1, h.2.1 "q" (by decide)⟩

/-- Claim C9 (counterexample): the directory list `get_robust_path_env`
prepends to PATH is NOT the same list `resolve_binary_path` probes: for a
concrete home, the probe list contains `/usr/bin` (and `/bin`, `/usr/sbin`,
`/sbin`) while the PATH prepend list does not. -/
theorem C9_counterexample :
    searchPaths "/home/u" ≠ extraPaths "/home/u"
      ∧ "/usr/bin" ∈ searchPaths "/home/u"
      ∧ "/usr/bin" ∉ extraPaths "/home/u" := by
  decide

/-- Claim C9 (amended): the PATH prepend list consists of the probe list's
entries, in the same relative order, with the probe list's four system
directories (`/usr/bin`, `/bin`, `/usr/sbin`, `/sbin`, positions 3-6)
omitted; the prepend joins that list with `:` in front of the inherited
PATH. -/
theorem C9_amended (home existing_path : String) :
    extraPaths home = (searchPaths home).take 3 ++ (searchPaths home).drop 7
      ∧ get_robust_path_env home existing_path
        = String.intercalate ":" (extraPaths home) ++ ":" ++ existing_path := by
  exact ⟨rfl, rfl⟩

/-- Claim C1: a pipe-based spawn (`run_tests`) returns `started = true` yet
creates NO registry record — `spawn_npm_command` receives the registry as
`_registry` and never calls `ProcessRegistry::register`, although `register`'s
own comment says the stdin handle is returned "for the spawn_npm_command to
manage".  The PTY path does register the pid and write handle under the
returned id at the Spawned-to-Streaming transition (visible here in a run
whose completion callback cannot reach the registry), and removes it exactly
once on completion. -/
theorem C1_registration_eval :
    (spawn_streaming_process okEnv baseWorld "run_tests" none none).1
        = Except.ok { started := true, process_id := "proc_5" }
      ∧ (spawn_streaming_process okEnv baseWorld "run_tests" none none).2.registry
        = []
      ∧ (spawn_streaming_process { okEnv with registryAccessible := false }
            baseWorld "create_code" none (some "S")).2.registry
        = [("proc_5", { writer := .pty (some 7), child_pid := some 42 })]
      ∧ (spawn_streaming_process okEnv baseWorld "create_code" none
            (some "S")).2.registry
        = [] := by
  exact ⟨rfl, rfl, by rfl, by rfl⟩

/-- Claim C2 (counterexample): a started pipe-based run (`run_tests`,
`started = true`) emits a pump "output" event with NO preceding "process
started" event: the whole trace is the pump output followed by "complete",
and neither payload begins with the started-indicator prefix
(`startedData_take22` shows every started indicator does). -/
theorem C2_counterexample :
    (spawn_streaming_process okEnv baseWorld "run_tests" none none).1
        = Except.ok { started := true, process_id := "proc_5" }
      ∧ (spawn_streaming_process okEnv baseWorld "run_tests" none
            none).2.events.map evProj
        = [("output", strBytes "hi"),
            ("complete", strBytes "Process exited with code 0")]
      ∧ (strBytes "hi").take 22 ≠ strBytes "Process started (PID: "
      ∧ (strBytes "Process exited with code 0").take 22
        ≠ strBytes "Process started (PID: " := by
  refine ⟨rfl, by rfl, by decide, by decide⟩

/-- Claim C2 (amended): for runs whose spawn call returned `started = true`:
a PTY run's trace is the "process started" indicator, then one "output" event
per pump read, then exactly one "complete" event, which is emitted after the
pump reached end-of-stream and the child was waited on and is the last event;
a pipe run's trace has the same shape and guarantees except that NO "process
started" indicator is emitted before the pump outputs. -/
theorem C2_amended (env : Env) (w0 : World) (wd : Option String) (spec : String)
    (sc : Option String) (a1 a2 : String)
    (ha1 : a1 = "create_code" ∨ a1 = "gen_tests")
    (ha2 : a2 = "run_tests" ∨ a2 = "run_app")
    (hw : w0.events = [])
    (h1 : env.tempWriteOk = true) (h2 : env.openPtyOk = true)
    (h3 : env.spawnOk = true) (h4 : env.cloneReaderOk = true)
    (h5 : env.takeWriterOk = true) (h6 : env.npmSpawnOk = true) :
    (spawn_streaming_process env w0 a1 wd (some spec)).2.events.map evProj
        = ("output", startedData env.child_pid)
          :: ((pumpPayloads env.ptyReads).map (fun d => ("output", d))
            ++ [("complete", ptyCompleteData (match env.ptyWait with
                  | some s => s
                  | none => 1))])
      ∧ ((spawn_streaming_process env w0 a1 wd (some spec)).2.events.map
            evProj).head?
        = some ("output", startedData env.child_pid)
      ∧ ((spawn_streaming_process env w0 a1 wd (some spec)).2.events.map
            evProj).getLast?
        = some ("complete", ptyCompleteData (match env.ptyWait with
            | some s => s
            | none => 1))
      ∧ ((spawn_streaming_process env w0 a1 wd (some spec)).2.events.map
            evProj).countP (fun p => p.1 == "complete") = 1
      ∧ (spawn_streaming_process env w0 a2 wd sc).2.events.map evProj
        = (pumpPayloads env.npmStdoutReads).map (fun d => ("output", d))
          ++ ((pumpPayloads env.npmStderrReads).map (fun d => ("error", d))
            ++ [("complete", npmCompleteData (match env.npmWait with
                  | some code => code.getD (-1)
                  | none => -1))])
      ∧ ((spawn_streaming_process env w0 a2 wd sc).2.events.map evProj).getLast?
        = some ("complete", npmCompleteData (match env.npmWait with
            | some code => code.getD (-1)
            | none => -1))
      ∧ ((spawn_streaming_process env w0 a2 wd sc).2.events.map evProj).countP
          (fun p => p.1 == "complete") = 1 := by
  have hp := spawn_pty_spec env w0 a1 wd spec ha1 h1 h2 h3 h4 h5
  have hn := spawn_npm_spec env w0 a2 wd sc ha2 h6
  have hmap : w0.events.map evProj = [] := by rw [hw]; rfl
  rw [hmap, List.nil_append] at hp hn
  have hoc : (("output" : String) == "complete") = false := by decide
  have hec : (("error" : String) == "complete") = false := by decide
  have hcc : (("complete" : String) == "complete") = true := by decide
  have hz1 := countP_tagged_eq_zero (pumpPayloads env.ptyReads) "output" hoc
  have hz2 := countP_tagged_eq_zero (pumpPayloads env.npmStdoutReads) "output" hoc
  have hz3 := countP_tagged_eq_zero (pumpPayloads env.npmStderrReads) "error" hec
  refine ⟨hp.2.1, ?_, ?_, ?_, hn.2.1, ?_, ?_⟩
  · rw [hp.2.1]; rfl
  · rw [hp.2.1, ← List.cons_append, List.getLast?_concat]
  · rw [hp.2.1]
    simp [List.countP_cons, List.countP_append, hz1, hoc, hcc]
  · rw [hn.2.1, ← List.append_assoc, List.getLast?_concat]
  · rw [hn.2.1]
    simp [List.countP_cons, List.countP_append, hz2, hz3, hcc]

/-- Witness for C2 (amended) at the all-success fixtures. -/
theorem C2_witness :
    ((spawn_streaming_process okEnv baseWorld "create_code" none
        (some "S")).2.events.map evProj).countP (fun p => p.1 == "complete") = 1
      ∧ ((spawn_streaming_process okEnv baseWorld "run_tests" none
          none).2.events.map evProj).getLast?
        = some ("complete", npmCompleteData 0) := by
  have h := C2_amended okEnv baseWorld none "S" none "create_code" "run_tests"
    (Or.inl rfl) (Or.inl rfl) rfl rfl rfl rfl rfl rfl rfl
  exact ⟨h.2.2.2.1, h.2.2.2.2.2.1⟩

/-- Claim C3 (counterexample): a failure occurring AFTER the child launched
successfully is returned as a synchronous error of the spawn call: with the
child spawned (`spawnOk = true`, the started indicator already emitted),
`try_clone_reader`'s failure makes the call return
`Failed to clone PTY reader: ...`. -/
theorem C3_counterexample :
    (spawn_streaming_process { okEnv with cloneReaderOk := false } baseWorld
          "create_code" none (some "S")).1
        = Except.error "Failed to clone PTY reader: os error"
      ∧ ({ okEnv with cloneReaderOk := false } : Env).spawnOk = true
      ∧ (spawn_streaming_process { okEnv with cloneReaderOk := false } baseWorld
            "create_code" none (some "S")).2.events.map evProj
        = [("output", startedData (some 42))] := by
  exact ⟨rfl, rfl, by rfl⟩

/-- Claim C3 (amended): failures before the child launches (missing required
parameter, temp-file write failure, PTY-open failure, spawn failure) are
returned synchronously as structured errors with no registry entry and zero
events; failures while acquiring the PTY master's reader or writer — which
occur after the child launched — are ALSO returned synchronously (with the
started indicator already emitted and no registry entry); once the pumps are
installed, all later failures (read errors, wait errors) never affect the
spawn call's result, which is `started = true`, and are surfaced only through
the terminal "complete" event. -/
theorem C3_amended (env : Env) (w0 : World) (wd : Option String) (spec : String)
    (sc : Option String) (a1 a2 : String)
    (ha1 : a1 = "create_code" ∨ a1 = "gen_tests")
    (ha2 : a2 = "run_tests" ∨ a2 = "run_app") :
    ((spawn_streaming_process env w0 a1 wd none).1
        = Except.error "specContent is required for this action"
      ∧ (spawn_streaming_process env w0 a1 wd none).2.events = w0.events
      ∧ (spawn_streaming_process env w0 a1 wd none).2.registry = w0.registry)
    ∧ (env.tempWriteOk = false →
        (spawn_streaming_process env w0 a1 wd (some spec)).1
            = Except.error ("Failed to write temp prompt file: " ++ env.ioMsg)
          ∧ (spawn_streaming_process env w0 a1 wd (some spec)).2.events
            = w0.events
          ∧ (spawn_streaming_process env w0 a1 wd (some spec)).2.registry
            = w0.registry)
    ∧ (env.tempWriteOk = true → env.openPtyOk = false →
        (spawn_streaming_process env w0 a1 wd (some spec)).1
            = Except.error ("Failed to create PTY: " ++ env.ioMsg)
          ∧ (spawn_streaming_process env w0 a1 wd (some spec)).2.events
            = w0.events
          ∧ (spawn_streaming_process env w0 a1 wd (some spec)).2.registry
            = w0.registry)
    ∧ (env.tempWriteOk = true → env.openPtyOk = true → env.spawnOk = false →
        (spawn_streaming_process env w0 a1 wd (some spec)).1
            = Except.error ("Failed to spawn claude: " ++ env.ioMsg)
          ∧ (spawn_streaming_process env w0 a1 wd (some spec)).2.events
            = w0.events
          ∧ (spawn_streaming_process env w0 a1 wd (some spec)).2.registry
            = w0.registry)
    ∧ (env.tempWriteOk = true → env.openPtyOk = true → env.spawnOk = true →
        env.cloneReaderOk = false →
        (spawn_streaming_process env w0 a1 wd (some spec)).1
            = Except.error ("Failed to clone PTY reader: " ++ env.ioMsg)
          ∧ (spawn_streaming_process env w0 a1 wd (some spec)).2.registry
            = w0.registry)
    ∧ (env.tempWriteOk = true → env.openPtyOk = true → env.spawnOk = true →
        env.cloneReaderOk = true → env.takeWriterOk = false →
        (spawn_streaming_process env w0 a1 wd (some spec)).1
            = Except.error ("Failed to take PTY writer: " ++ env.ioMsg)
          ∧ (spawn_streaming_process env w0 a1 wd (some spec)).2.registry
            = w0.registry)
    ∧ (env.tempWriteOk = true → env.openPtyOk = true → env.spawnOk = true →
        env.cloneReaderOk = true → env.takeWriterOk = true →
        (spawn_streaming_process env w0 a1 wd (some spec)).1
            = Except.ok { started := true,
                          process_id := mkProcessId (w0.clock w0.tick) }
          ∧ ((spawn_streaming_process env w0 a1 wd (some spec)).2.events.map
                evProj).getLast?
            = some ("complete", ptyCompleteData (match env.ptyWait with
                | some s => s
                | none => 1)))
    ∧ (env.npmSpawnOk = false →
        (spawn_streaming_process env w0 a2 wd sc).1
            = Except.error ("Failed to spawn npm: " ++ env.ioMsg)
          ∧ (spawn_streaming_process env w0 a2 wd sc).2.events = w0.events
          ∧ (spawn_streaming_process env w0 a2 wd sc).2.registry = w0.registry)
    ∧ (env.npmSpawnOk = true →
        (spawn_streaming_process env w0 a2 wd sc).1
            = Except.ok { started := true,
                          process_id := mkProcessId (w0.clock w0.tick) }
          ∧ ((spawn_streaming_process env w0 a2 wd sc).2.events.map
                evProj).getLast?
            = some ("complete", npmCompleteData (match env.npmWait with
                | some code => code.getD (-1)
                | none => -1))) := by
  refine ⟨?_, ?_, ?_, ?_, ?_, ?_, ?_, ?_, ?_⟩
  · have h := spawn_no_spec_spec env w0 wd a1 ha1
    exact ⟨h.1, h.2.1, h.2.2.1⟩
  · intro h
    have hs := spawn_tempwrite_fail_spec env w0 wd spec a1 ha1 h
    exact ⟨hs.1, hs.2.1, hs.2.2.1⟩
  · intro h1 h2
    have hs := spawn_openpty_fail_spec env w0 wd spec a1 ha1 h1 h2
    exact ⟨hs.1, hs.2.1, hs.2.2.1⟩
  · intro h1 h2 h3
    have hs := spawn_spawnfail_spec env w0 wd spec a1 ha1 h1 h2 h3
    exact ⟨hs.1, hs.2.1, hs.2.2.1⟩
  · intro h1 h2 h3 h4
    have hs := spawn_clonefail_spec env w0 wd spec a1 ha1 h1 h2 h3 h4
    exact ⟨hs.1, hs.2.2.1⟩
  · intro h1 h2 h3 h4 h5
    have hs := spawn_takewriter_fail_spec env w0 wd spec a1 ha1 h1 h2 h3 h4 h5
    exact ⟨hs.1, hs.2.2.1⟩
  · intro h1 h2 h3 h4 h5
    have hs := spawn_pty_spec env w0 a1 wd spec ha1 h1 h2 h3 h4 h5
    refine ⟨hs.1, ?_⟩
    rw [hs.2.1]
    exact getLast?_snoc_chain _ _ _ _
  · intro h
    have hs := spawn_npm_fail_spec env w0 wd sc a2 ha2 h
    exact ⟨hs.1, hs.2.1, hs.2.2.1⟩
  · intro h
    have hs := spawn_npm_spec env w0 a2 wd sc ha2 h
    refine ⟨hs.1, ?_⟩
    rw [hs.2.1, ← List.append_assoc, ← List.append_assoc, List.getLast?_concat]

/-- Witness for C3 (amended): temp-write failure is returned synchronously,
and an all-success npm run returns `started = true`. -/
theorem C3_witness :
    (spawn_streaming_process { okEnv with tempWriteOk := false } baseWorld
          "create_code" none (some "S")).1
        = Except.error "Failed to write temp prompt file: os error"
      ∧ (spawn_streaming_process okEnv baseWorld "run_tests" none none).1
        = Except.ok { started := true, process_id := "proc_5" } := by
  refine ⟨((C3_amended { okEnv with tempWriteOk := false } baseWorld none "S"
      none "create_code" "run_tests" (Or.inl rfl) (Or.inl rfl)).2.1 rfl).1, ?_⟩
  exact ((C3_amended okEnv baseWorld none "S" none "create_code" "run_tests"
    (Or.inl rfl) (Or.inl rfl)).2.2.2.2.2.2.2.2 rfl).1

/-- Claim C4 (counterexample): a run that fails after the temp prompt file was
written but before the reader thread is installed (here: PTY creation
failure) does NOT delete the file — the spawn call errors out and the file is
left on disk. -/
theorem C4_counterexample :
    (spawn_streaming_process { okEnv with openPtyOk := false } baseWorld
          "create_code" none (some "S")).1
        = Except.error "Failed to create PTY: os error"
      ∧ (spawn_streaming_process { okEnv with openPtyOk := false } baseWorld
            "create_code" none (some "S")).2.files
        = ["/tmp/specstudio_prompt_proc_5.txt"] := by
  exact ⟨rfl, by rfl⟩

/-- Claim C4 (amended): the temp prompt file is written before spawn, and for
every run that reaches streaming it is deleted before the "complete" event
fires (it does not exist in the final state, whose last event is "complete");
but when the run fails between the write and the installation of the waiter
thread (PTY-open, spawn, reader- or writer-acquisition failures) the file is
NOT deleted and remains on disk; failures before the write leave the file
set unchanged. -/
theorem C4_amended (env : Env) (w0 : World) (wd : Option String) (spec : String)
    (a1 : String) (ha1 : a1 = "create_code" ∨ a1 = "gen_tests") :
    (env.tempWriteOk = true → env.openPtyOk = true → env.spawnOk = true →
        env.cloneReaderOk = true → env.takeWriterOk = true →
        spawnTempPath (mkProcessId (w0.clock w0.tick))
            ∉ (spawn_streaming_process env w0 a1 wd (some spec)).2.files
          ∧ ((spawn_streaming_process env w0 a1 wd (some spec)).2.events.map
                evProj).getLast?
            = some ("complete", ptyCompleteData (match env.ptyWait with
                | some s => s
                | none => 1)))
    ∧ (env.tempWriteOk = true → env.openPtyOk = false →
        spawnTempPath (mkProcessId (w0.clock w0.tick))
          ∈ (spawn_streaming_process env w0 a1 wd (some spec)).2.files)
    ∧ (env.tempWriteOk = true → env.openPtyOk = true → env.spawnOk = false →
        spawnTempPath (mkProcessId (w0.clock w0.tick))
          ∈ (spawn_streaming_process env w0 a1 wd (some spec)).2.files)
    ∧ (env.tempWriteOk = true → env.openPtyOk = true → env.spawnOk = true →
        env.cloneReaderOk = false →
        spawnTempPath (mkProcessId (w0.clock w0.tick))
          ∈ (spawn_streaming_process env w0 a1 wd (some spec)).2.files)
    ∧ (env.tempWriteOk = true → env.openPtyOk = true → env.spawnOk = true →
        env.cloneReaderOk = true → env.takeWriterOk = false →
        spawnTempPath (mkProcessId (w0.clock w0.tick))
          ∈ (spawn_streaming_process env w0 a1 wd (some spec)).2.files)
    ∧ (env.tempWriteOk = false →
        (spawn_streaming_process env w0 a1 wd (some spec)).2.files = w0.files)
    ∧ (spawn_streaming_process env w0 a1 wd none).2.files = w0.files := by
  refine ⟨?_, ?_, ?_, ?_, ?_, ?_, ?_⟩
  · intro h1 h2 h3 h4 h5
    have hs := spawn_pty_spec env w0 a1 wd spec ha1 h1 h2 h3 h4 h5
    refine ⟨?_, ?_⟩
    · rw [hs.2.2.1]
      exact not_mem_removeFile_self _ _
    · rw [hs.2.1]
      exact getLast?_snoc_chain _ _ _ _
  · intro h1 h2
    rw [(spawn_openpty_fail_spec env w0 wd spec a1 ha1 h1 h2).2.2.2]
    exact mem_insertFile_self _ _
  · intro h1 h2 h3
    rw [(spawn_spawnfail_spec env w0 wd spec a1 ha1 h1 h2 h3).2.2.2]
    exact mem_insertFile_self _ _
  · intro h1 h2 h3 h4
    rw [(spawn_clonefail_spec env w0 wd spec a1 ha1 h1 h2 h3 h4).2.2.2]
    exact mem_insertFile_self _ _
  · intro h1 h2 h3 h4 h5
    rw [(spawn_takewriter_fail_spec env w0 wd spec a1 ha1 h1 h2 h3 h4 h5).2.2.2]
    exact mem_insertFile_self _ _
  · intro h
    exact (spawn_tempwrite_fail_spec env w0 wd spec a1 ha1 h).2.2.2
  · exact (spawn_no_spec_spec env w0 wd a1 ha1).2.2.2

/-- Witness for C4 (amended): in an all-success run the temp file is gone from
the final state, and under a PTY-open failure it persists. -/
theorem C4_witness :
    spawnTempPath (mkProcessId 5)
        ∉ (spawn_streaming_process okEnv baseWorld "create_code" none
            (some "S")).2.files
      ∧ spawnTempPath (mkProcessId 5)
        ∈ (spawn_streaming_process { okEnv with openPtyOk := false } baseWorld
            "create_code" none (some "S")).2.files := by
  refine ⟨((C4_amended okEnv baseWorld none "S" "create_code"
      (Or.inl rfl)).1 rfl rfl rfl rfl rfl).1, ?_⟩
  exact (C4_amended { okEnv with openPtyOk := false } baseWorld none "S"
    "create_code" (Or.inl rfl)).2.1 rfl rfl

/-- Claim C10: a successful input-injection call writes exactly the request's
input followed by one appended newline to the target's write channel and
emits exactly one "input" event echoing the input prefixed with "> "; a
failing call emits no event at all. -/
theorem C10_input_write_and_echo (env : InputEnv) (w : World) (input : String) :
    (∀ res, (send_process_input env w input).1 = Except.ok res →
        (send_process_input env w input).2.2 = [strBytes (input ++ "\n")]
          ∧ (send_process_input env w input).2.1.events.map evProj
            = w.events.map evProj
              ++ [("input", strBytes ("> " ++ input ++ "\n"))])
      ∧ (∀ msg, (send_process_input env w input).1 = Except.error msg →
          (send_process_input env w input).2.1.events = w.events) := by
  unfold send_process_input
  cases ha : ProcessRegistry.get_active_process_id w.registry with
  | none => simp [ha]
  | some pid =>
    simp only [ha]
    cases hwr : ProcessRegistry.get_pty_writer w.registry pid with
    | none =>
      simp only [hwr]
      exact sendInputViaStdin_spec env w pid (strBytes (input ++ "\n"))
        (strBytes ("> " ++ input ++ "\n"))
    | some wOpt =>
      simp only [hwr]
      cases hl : env.ptyLockOk with
      | false => simp [hl]
      | true =>
        cases wOpt with
        | none =>
          simp only [hl]
          simpa using sendInputViaStdin_spec env w pid
            (strBytes (input ++ "\n")) (strBytes ("> " ++ input ++ "\n"))
        | some s =>
          cases hw' : env.writeOk with
          | false => simp [hl, hw']
          | true =>
            cases hf : env.flushOk with
            | false => simp [hl, hw', hf]
            | true => simp [hl, hw', hf, emit_stream_event_evProj]

/-- Witness for C10 at a registry holding one PTY run with all steps
succeeding. -/
theorem C10_witness :
    (send_process_input okInputEnv
        { baseWorld with
            registry := [("p", { writer := .pty (some 7), child_pid := some 42 })] }
        "yes").2.2
      = [strBytes ("yes" ++ "\n")] := by
  exact ((C10_input_write_and_echo okInputEnv
    { baseWorld with
        registry := [("p", { writer := .pty (some 7), child_pid := some 42 })] }
    "yes").1 { success := true, message := "Input sent to PTY" } rfl).1

end SpecStudio
